import Mathlib

/-! Shallow embedding of the backend in src/backend/app.py and of the
command-line client in src/backend/cli_driver.py: an in-memory session
store with a login route, a portfolio route, and a CLI that drives the
two routes over HTTP. -/

/-- JSON values as the web framework parses them; numbers are modelled
exactly, as rationals. -/
inductive Json where
  | null
  | bool (b : Bool)
  | num (q : Rat)
  | str (s : String)
  | arr (xs : List Json)
  | obj (kvs : List (String × Json))

/-- Python truthiness of a parsed JSON value, as the source uses it in
conditions, in particular inside mock_login. -/
def truthy : Json → Bool
  | Json.null => false
  | Json.bool b => b
  | Json.num q => decide (¬ q = 0)
  | Json.str s => decide (¬ s = r"")
  | Json.arr xs => !xs.isEmpty
  | Json.obj kvs => !kvs.isEmpty

/-- Lookup of a key in the entry list of a JSON object, mirroring Python
dict lookup. -/
def lookupField : List (String × Json) → String → Option Json
  | [], _ => none
  | (k0, v0) :: rest, k => if k0 = k then some v0 else lookupField rest k

/-- Python dict.get with a default value; the none result models the
attribute error raised when the receiver is not an object. -/
def getJsonField (data : Json) (k : String) (dflt : Json) : Option Json :=
  match data with
  | Json.obj kvs => some ((lookupField kvs k).getD dflt)
  | _ => none

/-- The in-memory session store SESSIONS of app.py, a Python dict from
token strings to the stored username value, modelled as an
insertion-ordered association list. -/
abbrev SessionMap := List (String × Json)

/-- Dict lookup in the session store. -/
def SessionMap.find : SessionMap → String → Option Json
  | [], _ => none
  | (k0, v0) :: rest, k => if k0 = k then some v0 else SessionMap.find rest k

/-- Dict assignment into the session store: update in place when the key
already exists, append otherwise. -/
def SessionMap.insert : SessionMap → String → Json → SessionMap
  | [], k, v => [(k, v)]
  | (k0, v0) :: rest, k, v =>
    if k0 = k then (k, v) :: rest else (k0, v0) :: SessionMap.insert rest k v

/-- mock_login from app.py: the truth value of the Python expression
bool of username and password. -/
def mock_login (username password : Json) : Bool :=
  truthy username && truthy password

/-- validate_token from app.py: membership of the token in SESSIONS; an
absent token is never a key. -/
def validate_token (sessions : SessionMap) (token : Option String) : Bool :=
  match token with
  | some t => (SessionMap.find sessions t).isSome
  | none => false

/-- mock_fetch_portfolio from app.py: a fixed snapshot; the argument is
ignored entirely. -/
def mock_fetch_portfolio (_ : String) : Json :=
  Json.obj
    [( r"positions", Json.arr
        [Json.obj [( r"symbol", Json.str r"AAPL"), ( r"quantity", Json.num 120),
                   ( r"price", Json.num (18742 / 100)), ( r"pnl", Json.num (1416 / 10))],
         Json.obj [( r"symbol", Json.str r"MSFT"), ( r"quantity", Json.num 80),
                   ( r"price", Json.num (42215 / 100)), ( r"pnl", Json.num (-512 / 10))],
         Json.obj [( r"symbol", Json.str r"DMSO"), ( r"quantity", Json.num 800),
                   ( r"price", Json.num 1000), ( r"pnl", Json.num 1000)]]),
     ( r"cash", Json.num 18250)]

/-- One lowercase hexadecimal digit, as produced by the hex method of
Python bytes. -/
def hexDigit (n : Nat) : Char :=
  if n < 10 then Char.ofNat (48 + n) else Char.ofNat (87 + n)

/-- Hex encoding of a byte list, two digits per byte. -/
def bytesToHexChars : List Nat → List Char
  | [] => []
  | b :: bs => hexDigit (b / 16) :: hexDigit (b % 16) :: bytesToHexChars bs

/-- secrets.token_hex applied to the random bytes it drew: their lowercase
hex encoding. -/
def token_hex (bytes : List Nat) : String :=
  String.mk (bytesToHexChars bytes)

/-- Recogniser for the lowercase hexadecimal characters, digits 0 to 9 and
letters a to f. -/
def isHexChar (c : Char) : Bool :=
  (48 ≤ c.toNat && c.toNat ≤ 57) || (97 ≤ c.toNat && c.toNat ≤ 102)

/-- An HTTP response produced by a route handler: status code, JSON body,
and the ibkr_session cookie value set on it, when one is set. -/
structure Response where
  status : Nat
  body : Json
  cookieSet : Option String

/-- The name of the session cookie. -/
def SESSION_COOKIE : String := r"ibkr_session"

/-- The username field name of the login body. -/
def usernameKey : String := r"username"

/-- The password field name of the login body. -/
def passwordKey : String := r"password"

/-- The token field name of the login response body. -/
def tokenKey : String := r"token"

/-- The positions field name of the portfolio snapshot. -/
def positionsKey : String := r"positions"

/-- The cash field name of the portfolio snapshot. -/
def cashKey : String := r"cash"

/-- An error body as produced by jsonify on the two failure paths. -/
def jsonError (msg : String) : Json :=
  Json.obj [( r"error", Json.str msg)]

/-- The 401 response of the login route. -/
def invalidCredsResp : Response :=
  ⟨401, jsonError (r"invalid credentials"), none⟩

/-- The 401 response of the portfolio route. -/
def unauthorizedResp : Response :=
  ⟨401, jsonError (r"unauthorized"), none⟩

/-- The 200 login response: ok true together with the token, and the
session cookie set to the token. -/
def loginOkResp (tok : String) : Response :=
  ⟨200, Json.obj [( r"ok", Json.bool true), ( r"token", Json.str tok)], some tok⟩

/-- The parsed request body as the login route sees it: get_json with
silent errors yields none for an absent or unparsable body, and the
source replaces any falsy parse result by an empty object. -/
def parseBody : Option Json → Json
  | some j => if truthy j then j else Json.obj []
  | none => Json.obj []

/-- The login route of app.py: reads username and password from the body
with empty-string defaults, answers 401 when mock_login fails, otherwise
stores the fresh token and answers 200 with the token, which is also set
as a cookie. The fresh token drawn by secrets.token_hex inside the
handler is passed in as tok; the none result models the uncaught
exception raised by attribute lookup on a truthy non-object body. -/
def login (sessions : SessionMap) (body : Option Json) (tok : String) :
    Option (Response × SessionMap) :=
  match getJsonField (parseBody body) usernameKey (Json.str r""),
        getJsonField (parseBody body) passwordKey (Json.str r"") with
  | some username, some password =>
    if !(mock_login username password) then
      some (invalidCredsResp, sessions)
    else
      some (loginOkResp tok, SessionMap.insert sessions tok username)
  | _, _ => none

/-- The ASCII whitespace characters stripped by the Python strip method:
space, tab, line feed, carriage return, vertical tab, form feed. -/
def isPySpace (c : Char) : Bool :=
  c.toNat == 32 || c.toNat == 9 || c.toNat == 10 || c.toNat == 13 ||
    c.toNat == 11 || c.toNat == 12

/-- The Python strip method with no arguments, on the character list of a
string. -/
def pyStripChars (s : List Char) : List Char :=
  ((s.dropWhile isPySpace).reverse.dropWhile isPySpace).reverse

/-- Bool test that the first character list is an initial segment of the
second. -/
def isPrefixOfChars : List Char → List Char → Bool
  | [], _ => true
  | _ :: _, [] => false
  | a :: as, b :: bs => a == b && isPrefixOfChars as bs

/-- The Python removeprefix method on character lists. -/
def pyRemovePre (pre s : List Char) : List Char :=
  if isPrefixOfChars pre s then s.drop pre.length else s

/-- The characters of the literal Bearer marker: capital B, lowercase
letters, one trailing space. -/
def bearerChars : List Char := (r"Bearer ").data

/-- The token the portfolio route derives from the Authorization header:
the header value with one optional leading Bearer marker removed and
surrounding whitespace stripped; a missing header defaults to the empty
string. -/
def headerToken (auth : Option String) : String :=
  String.mk (pyStripChars (pyRemovePre bearerChars (auth.getD r"").data))

/-- The parts of a portfolio request that the handler reads: the
ibkr_session cookie value when that cookie is present, and the
Authorization header value when present. -/
structure PortfolioRequest where
  cookie : Option String
  authorization : Option String

/-- Token extraction of the portfolio route: the cookie value when the
cookie is present and non-empty, since the Python or operator picks the
first truthy operand, otherwise the processed Authorization header. -/
def extract_token (req : PortfolioRequest) : String :=
  match req.cookie with
  | some c => if c = r"" then headerToken req.authorization else c
  | none => headerToken req.authorization

/-- The portfolio route of app.py: 401 unless the extracted token
validates, otherwise 200 with the fixed snapshot. -/
def portfolio (sessions : SessionMap) (req : PortfolioRequest) : Response :=
  if !(validate_token sessions (some (extract_token req))) then
    unauthorizedResp
  else
    ⟨200, mock_fetch_portfolio (extract_token req), none⟩

/-- One observable operation against the running process: a login request
carrying its parsed body and the token freshly drawn inside the handler,
or a portfolio request. -/
inductive Event where
  | loginEv (body : Option Json) (tok : String)
  | portfolioEv (req : PortfolioRequest)

/-- The session map after one request is handled; an uncaught exception
leaves the map untouched, and the portfolio route never writes to it. -/
def stepSessions (sessions : SessionMap) : Event → SessionMap
  | Event.loginEv body tok =>
    match login sessions body tok with
    | some (_, sessions2) => sessions2
    | none => sessions
  | Event.portfolioEv _ => sessions

/-- The session map after a sequence of requests is handled. -/
def runTrace (sessions : SessionMap) : List Event → SessionMap
  | [] => sessions
  | e :: es => runTrace (stepSessions sessions e) es

/-- The tokens returned by the successful logins along a trace. -/
def issuedTokens : SessionMap → List Event → List String
  | _, [] => []
  | s, e :: es =>
    (match e with
     | Event.loginEv body tok =>
       match login s body tok with
       | some (r, _) => if r.status = 200 then [tok] else []
       | none => []
     | Event.portfolioEv _ => []) ++ issuedTokens (stepSessions s e) es

/-- Freshness of the randomly drawn tokens along a trace: every login
event draws a token that is not yet a key of the current map. This
encodes the 128 bits of entropy behind secrets.token_hex, which the spec
states as uniqueness by construction. -/
def freshLogins : SessionMap → List Event → Bool
  | _, [] => true
  | s, e :: es =>
    (match e with
     | Event.loginEv _ tok => (SessionMap.find s tok).isNone
     | Event.portfolioEv _ => true) && freshLogins (stepSessions s e) es

/-- An HTTP response as the CLI sees it: the status code, the raw body
text, and the JSON value the body parses to. -/
structure HttpResponse where
  status : Nat
  text : String
  jsonBody : Json

/-- Outcome of a CLI subcommand: a JSON value echoed to standard output,
or a process exit code with the line echoed to standard error. -/
inductive CliResult where
  | ok (output : Json)
  | fail (exitCode : Nat) (stderrLine : String)

/-- The standard-error line of the login subcommand on failure. -/
def loginFailMsg (resp : HttpResponse) : String :=
  r"Login failed (" ++ toString resp.status ++ r"): " ++ resp.text

/-- The standard-error line of the portfolio subcommand on failure. -/
def requestFailMsg (resp : HttpResponse) : String :=
  r"Request failed (" ++ toString resp.status ++ r"): " ++ resp.text

/-- The login subcommand of cli_driver.py after the POST returns: any
status other than exactly 200 exits 1 with the failure line on standard
error; on 200 the token field of the body, null when absent, is echoed.
The none result models the exception raised by get on a non-object
body. -/
def cli_login (resp : HttpResponse) : Option CliResult :=
  if resp.status ≠ 200 then
    some (CliResult.fail 1 (loginFailMsg resp))
  else
    (getJsonField resp.jsonBody tokenKey Json.null).map CliResult.ok

/-- The portfolio subcommand of cli_driver.py after the GET returns: any
status other than exactly 200 exits 1 with the failure line on standard
error; on 200 the whole JSON body is echoed, which the source prints with
indent 2; serialization itself is out of scope here. -/
def cli_portfolio (resp : HttpResponse) : CliResult :=
  if resp.status ≠ 200 then
    CliResult.fail 1 (requestFailMsg resp)
  else
    CliResult.ok resp.jsonBody

/-- A JSON login body carrying string credentials. -/
def credsBody (u p : String) : Json :=
  Json.obj [(usernameKey, Json.str u), (passwordKey, Json.str p)]

/-- Lookup after insertion: the inserted key maps to the new value, every
other key is unaffected. -/
theorem find_insert (s : SessionMap) (k : String) (v : Json) (t : String) :
    SessionMap.find (SessionMap.insert s k v) t =
      if t = k then some v else SessionMap.find s t := by
  induction s with
  | nil =>
    by_cases h : t = k
    · subst h; simp [SessionMap.insert, SessionMap.find]
    · have h2 : ¬ k = t := fun hh => h hh.symm
      simp [SessionMap.insert, SessionMap.find, h, h2]
  | cons hd rest ih =>
    obtain ⟨k0, v0⟩ := hd
    by_cases hk : k0 = k
    · subst hk
      by_cases ht : t = k0
      · subst ht
        simp [SessionMap.insert, SessionMap.find]
      · have h2 : ¬ k0 = t := fun hh => ht hh.symm
        simp [SessionMap.insert, SessionMap.find, ht, h2]
    · by_cases h0 : k0 = t
      · subst h0
        simp [SessionMap.insert, SessionMap.find, hk]
      · simp [SessionMap.insert, SessionMap.find, hk, h0, ih]

/-- A body that is already an object passes through the falsy-body
replacement unchanged. -/
theorem parseBody_obj (kvs : List (String × Json)) :
    parseBody (some (Json.obj kvs)) = Json.obj kvs := by
  cases kvs with
  | nil => rfl
  | cons a l => rfl

/-- A successful field read forces the body to be an object. -/
theorem getJsonField_some (b : Json) (k : String) (d : Json) (x : Json)
    (h : getJsonField b k d = some x) : ∃ kvs, b = Json.obj kvs := by
  cases b with
  | obj kvs => exact ⟨kvs, rfl⟩
  | null => simp [getJsonField] at h
  | bool b0 => simp [getJsonField] at h
  | num q => simp [getJsonField] at h
  | str s0 => simp [getJsonField] at h
  | arr xs => simp [getJsonField] at h

/-- The login route in terms of the credential values its two field reads
produce. -/
theorem login_getField (s : SessionMap) (b : Json) (tok : String) (u p : Json)
    (hu : getJsonField b usernameKey (Json.str r"") = some u)
    (hp : getJsonField b passwordKey (Json.str r"") = some p) :
    login s (some b) tok =
      if !(mock_login u p) then some (invalidCredsResp, s)
      else some (loginOkResp tok, SessionMap.insert s tok u) := by
  obtain ⟨kvs, rfl⟩ := getJsonField_some b usernameKey (Json.str r"") u hu
  unfold login
  rw [parseBody_obj, hu, hp]

/-- Shape of every non-crashing login result: either the rejection
response with the map unchanged, or the success response with exactly one
insertion at the fresh token. -/
theorem login_shape (s : SessionMap) (body : Option Json) (tok : String)
    (r : Response) (s2 : SessionMap) (h : login s body tok = some (r, s2)) :
    (r = invalidCredsResp ∧ s2 = s) ∨
      ∃ u, r = loginOkResp tok ∧ s2 = SessionMap.insert s tok u := by
  unfold login at h
  split at h
  · split at h
    · simp only [Option.some.injEq, Prod.mk.injEq] at h
      exact Or.inl ⟨h.1.symm, h.2.symm⟩
    · simp only [Option.some.injEq, Prod.mk.injEq] at h
      exact Or.inr ⟨_, h.1.symm, h.2.symm⟩
  · exact Option.noConfusion h

/-- Reading the username field of a string-credential body. -/
theorem credsBody_username (u p : String) :
    getJsonField (credsBody u p) usernameKey (Json.str r"") = some (Json.str u) := by
  simp [credsBody, getJsonField, lookupField]

/-- Reading the password field of a string-credential body. -/
theorem credsBody_password (u p : String) :
    getJsonField (credsBody u p) passwordKey (Json.str r"") = some (Json.str p) := by
  have hne : ¬ usernameKey = passwordKey := by decide
  simp [credsBody, getJsonField, lookupField, hne]

/-- Login with non-empty string credentials succeeds and performs exactly
the insertion of the fresh token. -/
theorem login_success_creds (s : SessionMap) (u p : String) (tok : String)
    (hu : ¬ u = r"") (hp : ¬ p = r"") :
    login s (some (credsBody u p)) tok =
      some (loginOkResp tok, SessionMap.insert s tok (Json.str u)) := by
  rw [login_getField s (credsBody u p) tok (Json.str u) (Json.str p)
    (credsBody_username u p) (credsBody_password u p)]
  simp [mock_login, truthy, hu, hp]

/-- Every hex digit of a value below 16 is a lowercase hexadecimal
character. -/
theorem hexDigit_hex (n : Nat) (h : n < 16) : isHexChar (hexDigit n) = true := by
  interval_cases n <;> decide

/-- The hex encoding has two characters per byte. -/
theorem bytesToHexChars_length (bs : List Nat) :
    (bytesToHexChars bs).length = 2 * bs.length := by
  induction bs with
  | nil => rfl
  | cons b l ih => simp [bytesToHexChars, ih]; omega

/-- Every character of the hex encoding of genuine bytes is a lowercase
hexadecimal character. -/
theorem bytesToHexChars_hex (bs : List Nat) (hb : ∀ b ∈ bs, b < 256) :
    ∀ c ∈ bytesToHexChars bs, isHexChar c = true := by
  induction bs with
  | nil => intro c hc; simp [bytesToHexChars] at hc
  | cons b l ih =>
    intro c hc
    have hb0 : b < 256 := hb b (by simp)
    simp only [bytesToHexChars, List.mem_cons] at hc
    rcases hc with h1 | h2 | h3
    · subst h1
      exact hexDigit_hex (b / 16) (Nat.div_lt_of_lt_mul (by omega))
    · subst h2
      exact hexDigit_hex (b % 16) (Nat.mod_lt b (by omega))
    · exact ih (fun x hx => hb x (by simp [hx])) c h3

/-- Along a trace whose login events draw fresh tokens, every existing
session record survives untouched. -/
theorem find_runTrace_persist (es : List Event) :
    ∀ (s : SessionMap) (k : String) (v : Json),
    freshLogins s es = true → SessionMap.find s k = some v →
    SessionMap.find (runTrace s es) k = some v := by
  induction es with
  | nil => intro s k v _ h; exact h
  | cons e es ih =>
    intro s k v hf h
    simp only [freshLogins, Bool.and_eq_true] at hf
    have hrun : runTrace s (e :: es) = runTrace (stepSessions s e) es := rfl
    rw [hrun]
    refine ih (stepSessions s e) k v hf.2 ?_
    cases e with
    | portfolioEv req => simpa [stepSessions] using h
    | loginEv body tok =>
      have hfresh : SessionMap.find s tok = none := by
        have := hf.1
        simpa [Option.isNone_iff_eq_none] using this
      cases hl : login s body tok with
      | none => simpa [stepSessions, hl] using h
      | some pr =>
        obtain ⟨r, s2⟩ := pr
        have hshape := login_shape s body tok r s2 hl
        have hstep : stepSessions s (Event.loginEv body tok) = s2 := by
          simp [stepSessions, hl]
        rw [hstep]
        rcases hshape with ⟨_, hs⟩ | ⟨u, _, hs⟩
        · rw [hs]; exact h
        · subst hs
          rw [find_insert]
          have hne : ¬ k = tok := by
            intro hkt
            rw [hkt, hfresh] at h
            exact Option.noConfusion h
          rw [if_neg hne]
          exact h

/-- Every key of the map reached by a trace was a key at the start or was returned by a successful login along the trace. -/
theorem runTrace_keys (es : List Event) :
    ∀ (s : SessionMap) (t : String),
    (SessionMap.find (runTrace s es) t).isSome = true →
    (SessionMap.find s t).isSome = true ∨ t ∈ issuedTokens s es := by
  induction es with
  | nil => intro s t h; exact Or.inl h
  | cons e es ih =>
    intro s t h
    have h0 : (SessionMap.find (runTrace (stepSessions s e) es) t).isSome = true := h
    rcases ih (stepSessions s e) t h0 with h1 | h1
    · cases e with
      | portfolioEv req =>
        exact Or.inl (by simpa [stepSessions] using h1)
      | loginEv body tok =>
        cases hl : login s body tok with
        | none =>
          exact Or.inl (by simpa [stepSessions, hl] using h1)
        | some pr =>
          obtain ⟨r, s2⟩ := pr
          have h2 : (SessionMap.find s2 t).isSome = true := by
            simpa [stepSessions, hl] using h1
          rcases login_shape s body tok r s2 hl with ⟨_, hs⟩ | ⟨u, hr, hs⟩
          · rw [hs] at h2; exact Or.inl h2
          · subst hs
            rw [find_insert] at h2
            by_cases ht : t = tok
            · right
              simp [issuedTokens, hl, hr, loginOkResp, ht]
            · rw [if_neg ht] at h2
              exact Or.inl h2
    · right
      cases e with
      | portfolioEv req =>
        simpa [issuedTokens, stepSessions] using h1
      | loginEv body tok =>
        simp only [issuedTokens]
        exact List.mem_append.mpr (Or.inr h1)

/-- C1: over the documented string-typed credential fields, the login
route answers the 401 invalid-credentials response exactly when the
username or the password is the empty string, with a missing field
defaulting to the empty string, succeeds for every pair of non-empty
strings, and on rejection leaves the session map unchanged. -/
theorem login_rejects_iff_empty_creds (s : SessionMap) (b : Json) (tok : String)
    (u p : String)
    (hu : getJsonField b usernameKey (Json.str r"") = some (Json.str u))
    (hp : getJsonField b passwordKey (Json.str r"") = some (Json.str p)) :
    login s (some b) tok =
      if u = r"" ∨ p = r"" then some (invalidCredsResp, s)
      else some (loginOkResp tok, SessionMap.insert s tok (Json.str u)) := by
  rw [login_getField s b tok (Json.str u) (Json.str p) hu hp]
  by_cases h1 : u = r"" <;> by_cases h2 : p = r"" <;>
    simp [mock_login, truthy, h1, h2]

/-- Witness for C1 at the credentials alice, secret. -/
theorem login_rejects_iff_empty_creds_witness :
    getJsonField (credsBody (r"alice") (r"secret")) usernameKey (Json.str r"") =
      some (Json.str r"alice") ∧
    login [] (some (credsBody (r"alice") (r"secret"))) (r"t0") =
      (if (r"alice" : String) = r"" ∨ (r"secret" : String) = r""
       then some (invalidCredsResp, [])
       else some (loginOkResp (r"t0"),
         SessionMap.insert [] (r"t0") (Json.str r"alice"))) :=
  ⟨rfl, login_rejects_iff_empty_creds [] (credsBody (r"alice") (r"secret"))
    (r"t0") (r"alice") (r"secret") rfl rfl⟩

/-- C2: for every non-empty string credential pair, login with the token
drawn from 16 random bytes returns that token, which is 32 lowercase
hexadecimal characters, inserts the token-to-username record into the
session map, and immediately afterwards the token validates and looks
up the username. -/
theorem issue_validate_roundtrip (s : SessionMap) (u p : String) (bytes : List Nat)
    (hu : ¬ u = r"") (hp : ¬ p = r"") (hlen : bytes.length = 16)
    (hbytes : ∀ b ∈ bytes, b < 256) :
    (token_hex bytes).length = 32 ∧
    (∀ c ∈ (token_hex bytes).data, isHexChar c = true) ∧
    login s (some (credsBody u p)) (token_hex bytes) =
      some (loginOkResp (token_hex bytes),
        SessionMap.insert s (token_hex bytes) (Json.str u)) ∧
    SessionMap.find (SessionMap.insert s (token_hex bytes) (Json.str u))
      (token_hex bytes) = some (Json.str u) ∧
    validate_token (SessionMap.insert s (token_hex bytes) (Json.str u))
      (some (token_hex bytes)) = true := by
  have hfind : SessionMap.find (SessionMap.insert s (token_hex bytes) (Json.str u))
      (token_hex bytes) = some (Json.str u) := by
    rw [find_insert, if_pos rfl]
  refine ⟨?_, ?_, login_success_creds s u p (token_hex bytes) hu hp, hfind, ?_⟩
  · show (String.mk (bytesToHexChars bytes)).length = 32
    simp [String.length, bytesToHexChars_length, hlen]
  · intro c hc
    exact bytesToHexChars_hex bytes hbytes c hc
  · simp [validate_token, hfind]

/-- Witness for C2 at the credentials alice, secret and sixteen zero
bytes. -/
theorem issue_validate_roundtrip_witness :
    (¬ (r"alice" : String) = r"") ∧ (List.replicate 16 0).length = 16 ∧
    (∀ b ∈ List.replicate 16 0, b < 256) ∧
    (token_hex (List.replicate 16 0)).length = 32 ∧
    validate_token
      (SessionMap.insert [] (token_hex (List.replicate 16 0)) (Json.str r"alice"))
      (some (token_hex (List.replicate 16 0))) = true :=
  ⟨by decide, by decide, by decide,
   (issue_validate_roundtrip [] (r"alice") (r"secret") (List.replicate 16 0)
      (by decide) (by decide) (by decide) (by decide)).1,
   (issue_validate_roundtrip [] (r"alice") (r"secret") (List.replicate 16 0)
      (by decide) (by decide) (by decide) (by decide)).2.2.2.2⟩

/-- C9: an absent or unparsable request body is handled exactly like an
empty JSON object, so both credentials default to empty strings and the
route answers the same 401 invalid-credentials response with the map
unchanged; no distinct status reports the parse error. -/
theorem login_missing_or_bad_json (s : SessionMap) (tok : String) :
    login s Option.none tok = some (invalidCredsResp, s) ∧
    login s Option.none tok = login s (some (Json.obj [])) tok :=
  ⟨rfl, rfl⟩

/-- C10: credential checking is Python truthiness over JSON values of any
type: both fields truthy gives success with the username value stored
as-is, a falsy field of any type gives the 401 rejection. -/
theorem login_truthy_creds (s : SessionMap) (b : Json) (tok : String) (u p : Json)
    (hu : getJsonField b usernameKey (Json.str r"") = some u)
    (hp : getJsonField b passwordKey (Json.str r"") = some p) :
    (truthy u = true → truthy p = true →
      login s (some b) tok = some (loginOkResp tok, SessionMap.insert s tok u)) ∧
    ((truthy u = false ∨ truthy p = false) →
      login s (some b) tok = some (invalidCredsResp, s)) := by
  constructor
  · intro h1 h2
    rw [login_getField s b tok u p hu hp]
    simp [mock_login, h1, h2]
  · intro hor
    rw [login_getField s b tok u p hu hp]
    rcases hor with h | h <;> simp [mock_login, h]

/-- Witness for C10: the number five with the boolean true logs in and
the number five is stored as the record value; the number zero is
rejected. -/
theorem login_truthy_creds_witness :
    truthy (Json.num 5) = true ∧ truthy (Json.num 0) = false ∧
    login [] (some (Json.obj [(usernameKey, Json.num 5), (passwordKey, Json.bool true)]))
        (r"t1") =
      some (loginOkResp (r"t1"), SessionMap.insert [] (r"t1") (Json.num 5)) ∧
    login [] (some (Json.obj [(usernameKey, Json.num 0), (passwordKey, Json.str r"pw")]))
        (r"t1") =
      some (invalidCredsResp, []) :=
  ⟨by decide, by decide,
   (login_truthy_creds []
      (Json.obj [(usernameKey, Json.num 5), (passwordKey, Json.bool true)])
      (r"t1") (Json.num 5) (Json.bool true) rfl rfl).1 (by decide) rfl,
   (login_truthy_creds []
      (Json.obj [(usernameKey, Json.num 0), (passwordKey, Json.str r"pw")])
      (r"t1") (Json.num 0) (Json.str r"pw") rfl rfl).2 (Or.inl (by decide))⟩

/-- C3: a presented token validates exactly when it is a key of the
session map; an absent token never validates; starting from the empty
store of a fresh process, any token never returned by a successful login
along the handled requests does not validate; and whenever the extracted
token does not validate the portfolio route answers the 401 unauthorized
response. -/
theorem validate_token_member_spec :
    (∀ (s : SessionMap) (t : String),
        validate_token s (some t) = true ↔ (SessionMap.find s t).isSome = true) ∧
    (∀ s : SessionMap, validate_token s Option.none = false) ∧
    (∀ (es : List Event) (t : String), t ∉ issuedTokens [] es →
        validate_token (runTrace [] es) (some t) = false) ∧
    (∀ (s : SessionMap) (req : PortfolioRequest),
        validate_token s (some (extract_token req)) = false →
        portfolio s req = unauthorizedResp) := by
  refine ⟨fun s t => Iff.rfl, fun s => rfl, ?_, ?_⟩
  · intro es t hnot
    cases hv : validate_token (runTrace [] es) (some t) with
    | false => rfl
    | true =>
      have hsome : (SessionMap.find (runTrace [] es) t).isSome = true := hv
      rcases runTrace_keys es [] t hsome with h | h
      · exact absurd h (by simp [SessionMap.find])
      · exact absurd h hnot
  · intro s req hv
    simp [portfolio, hv]

/-- Witness for C3: after one successful login issuing one token, the
empty string does not validate, and the portfolio route with no
credential at all answers 401. -/
theorem validate_token_member_spec_witness :
    ((r"" : String) ∉ issuedTokens []
        [Event.loginEv (some (credsBody (r"alice") (r"secret"))) (r"aa11")]) ∧
    validate_token (runTrace []
        [Event.loginEv (some (credsBody (r"alice") (r"secret"))) (r"aa11")])
      (some r"") = false ∧
    portfolio [] ⟨none, none⟩ = unauthorizedResp :=
  ⟨by decide, validate_token_member_spec.2.2.1 _ _ (by decide),
   validate_token_member_spec.2.2.2 [] ⟨none, none⟩ rfl⟩

/-- C5: the portfolio route never changes the session map, a rejected
login never changes it, and along any sequence of requests whose login
events draw fresh tokens, an existing record survives unchanged and its
token keeps validating. -/
theorem session_records_persist :
    (∀ (s : SessionMap) (req : PortfolioRequest),
        stepSessions s (Event.portfolioEv req) = s) ∧
    (∀ (s : SessionMap) (body : Option Json) (tok : String) (r : Response)
        (s2 : SessionMap),
        login s body tok = some (r, s2) → r.status = 401 → s2 = s) ∧
    (∀ (s : SessionMap) (es : List Event) (k : String) (v : Json),
        freshLogins s es = true → SessionMap.find s k = some v →
        SessionMap.find (runTrace s es) k = some v ∧
        validate_token (runTrace s es) (some k) = true) := by
  refine ⟨fun s req => rfl, ?_, ?_⟩
  · intro s body tok r s2 hl h401
    rcases login_shape s body tok r s2 hl with ⟨_, hs⟩ | ⟨u, hr, _⟩
    · exact hs
    · rw [hr] at h401
      simp [loginOkResp] at h401
  · intro s es k v hf hk
    have hp := find_runTrace_persist es s k v hf hk
    exact ⟨hp, by simp [validate_token, hp]⟩

/-- Witness for C5: one existing record survives a portfolio request
followed by a fresh successful login, and still validates. -/
theorem session_records_persist_witness :
    freshLogins [( r"k0", Json.str r"alice")]
      [Event.portfolioEv ⟨none, none⟩,
       Event.loginEv (some (credsBody (r"bob") (r"pw"))) (r"t9")] = true ∧
    SessionMap.find (runTrace [( r"k0", Json.str r"alice")]
      [Event.portfolioEv ⟨none, none⟩,
       Event.loginEv (some (credsBody (r"bob") (r"pw"))) (r"t9")]) (r"k0") =
      some (Json.str r"alice") ∧
    validate_token (runTrace [( r"k0", Json.str r"alice")]
      [Event.portfolioEv ⟨none, none⟩,
       Event.loginEv (some (credsBody (r"bob") (r"pw"))) (r"t9")])
      (some r"k0") = true :=
  ⟨rfl, (session_records_persist.2.2 [( r"k0", Json.str r"alice")]
      [Event.portfolioEv ⟨none, none⟩,
       Event.loginEv (some (credsBody (r"bob") (r"pw"))) (r"t9")]
      (r"k0") (Json.str r"alice") rfl rfl).1,
   (session_records_persist.2.2 [( r"k0", Json.str r"alice")]
      [Event.portfolioEv ⟨none, none⟩,
       Event.loginEv (some (credsBody (r"bob") (r"pw"))) (r"t9")]
      (r"k0") (Json.str r"alice") rfl rfl).2⟩

/-- C6: the portfolio snapshot is independent of the argument, its cash
field is 18250, and its positions field is a list of exactly three
records. -/
theorem fetch_portfolio_constant :
    (∀ u v : String, mock_fetch_portfolio u = mock_fetch_portfolio v) ∧
    (∀ u : String, getJsonField (mock_fetch_portfolio u) cashKey Json.null =
        some (Json.num 18250)) ∧
    (∀ u : String, ∃ xs,
        getJsonField (mock_fetch_portfolio u) positionsKey Json.null =
          some (Json.arr xs) ∧ xs.length = 3) := by
  refine ⟨fun u v => rfl, fun u => rfl, fun u => ⟨_, rfl, rfl⟩⟩

/-- C4 counterexample: a request that carries both a cookie value, here
the empty string, and a bearer header has the header token validated
rather than the cookie value, because the Python or operator skips the
falsy empty cookie; with the header token in the store the request even
succeeds although the cookie value does not validate. -/
theorem cookie_precedence_cex :
    extract_token ⟨some r"", some (r"Bearer abc")⟩ = r"abc" ∧
    validate_token [( r"abc", Json.str r"u")] (some r"") = false ∧
    (portfolio [( r"abc", Json.str r"u")]
      ⟨some r"", some (r"Bearer abc")⟩).status = 200 :=
  ⟨rfl, rfl, rfl⟩

/-- C4 amended: extraction tries the cookie first and then the bearer
header, and the first strategy yielding a non-empty token wins: every
request carrying a non-empty cookie value has exactly that value
validated, whatever the header says, while a present-but-empty cookie is
skipped in favour of the processed header, as is an absent cookie. -/
theorem cookie_precedence_amended (c : String) (a : Option String)
    (h : ¬ c = r"") :
    extract_token ⟨some c, a⟩ = c ∧
    extract_token ⟨some r"", a⟩ = headerToken a ∧
    extract_token ⟨none, a⟩ = headerToken a ∧
    ∀ s : SessionMap, portfolio s ⟨some c, a⟩ =
      (if validate_token s (some c) = true
       then Response.mk 200 (mock_fetch_portfolio c) none
       else unauthorizedResp) := by
  have he : extract_token ⟨some c, a⟩ = c := by
    simp [extract_token, h]
  refine ⟨he, by simp [extract_token], rfl, ?_⟩
  intro s
  rw [portfolio, he]
  cases hv : validate_token s (some c) with
  | false => simp
  | true => simp

/-- Witness for C4 amended, at a one-character cookie value. -/
theorem cookie_precedence_amended_witness :
    (¬ (r"c1" : String) = r"") ∧
    extract_token ⟨some r"c1", some (r"Bearer abc")⟩ = r"c1" ∧
    portfolio [] ⟨some r"c1", some (r"Bearer abc")⟩ =
      (if validate_token [] (some r"c1") = true
       then Response.mk 200 (mock_fetch_portfolio (r"c1")) none
       else unauthorizedResp) :=
  ⟨by decide,
   (cookie_precedence_amended (r"c1") (some (r"Bearer abc")) (by decide)).1,
   (cookie_precedence_amended (r"c1") (some (r"Bearer abc")) (by decide)).2.2.2 []⟩

/-- C7 counterexample: the status 201 is a 2xx success, yet both
subcommands treat it as failure, exiting 1 with the failure line on
standard error, because the source compares the status against exactly
200. -/
theorem cli_status_check_cex :
    (200 ≤ 201 ∧ 201 < 300) ∧
    cli_login ⟨201, r"created", Json.null⟩ =
      some (CliResult.fail 1 (r"Login failed (201): created")) ∧
    cli_portfolio ⟨201, r"created", Json.null⟩ =
      CliResult.fail 1 (r"Request failed (201): created") :=
  ⟨⟨by omega, by omega⟩, rfl, rfl⟩

/-- C7 amended: both subcommands exit 1 and echo a failure line that
embeds the raw response body to standard error exactly when the status is
not 200; on status 200 the login subcommand echoes the token field of the
body and the portfolio subcommand echoes the JSON body. -/
theorem cli_status_check_amended (resp : HttpResponse) :
    (¬ resp.status = 200 →
      cli_login resp = some (CliResult.fail 1 (loginFailMsg resp)) ∧
      cli_portfolio resp = CliResult.fail 1 (requestFailMsg resp) ∧
      (∃ s1, loginFailMsg resp = s1 ++ resp.text) ∧
      (∃ s2, requestFailMsg resp = s2 ++ resp.text)) ∧
    (resp.status = 200 →
      cli_login resp = (getJsonField resp.jsonBody tokenKey Json.null).map CliResult.ok ∧
      cli_portfolio resp = CliResult.ok resp.jsonBody) := by
  constructor
  · intro h
    refine ⟨by simp [cli_login, h], by simp [cli_portfolio, h], ⟨_, rfl⟩, ⟨_, rfl⟩⟩
  · intro h
    exact ⟨by simp [cli_login, h], by simp [cli_portfolio, h]⟩

/-- Witness for C7 amended: a 401 response fails both subcommands and a
200 response echoes the body. -/
theorem cli_status_check_amended_witness :
    (¬ (401 : Nat) = 200) ∧
    cli_login ⟨401, r"denied", Json.null⟩ =
      some (CliResult.fail 1 (loginFailMsg ⟨401, r"denied", Json.null⟩)) ∧
    cli_portfolio ⟨200, r"body", Json.obj []⟩ = CliResult.ok (Json.obj []) :=
  ⟨by decide,
   ((cli_status_check_amended ⟨401, r"denied", Json.null⟩).1 (by decide)).1,
   ((cli_status_check_amended ⟨200, r"body", Json.obj []⟩).2 rfl).2⟩

/-- C8: the Bearer marker is optional: for every request with no cookie,
whenever the Authorization header value, after removal of one optional
leading Bearer marker and stripping of surrounding whitespace, is a key
of the session map, the portfolio route answers 200. -/
theorem bearer_optional_auth (s : SessionMap) (a : String)
    (h : (SessionMap.find s (headerToken (some a))).isSome = true) :
    (portfolio s ⟨none, some a⟩).status = 200 := by
  have he : extract_token ⟨none, some a⟩ = headerToken (some a) := rfl
  rw [portfolio, he]
  have hv : validate_token s (some (headerToken (some a))) = true := h
  rw [hv]
  rfl

/-- Witness for C8: a stored token presented raw in the Authorization
header, with no Bearer marker at all, is accepted. -/
theorem bearer_optional_auth_witness :
    (SessionMap.find [( r"abc", Json.str r"u")] (headerToken (some r"abc"))).isSome
      = true ∧
    (portfolio [( r"abc", Json.str r"u")] ⟨none, some r"abc"⟩).status = 200 :=
  ⟨rfl, bearer_optional_auth [( r"abc", Json.str r"u")] (r"abc") rfl⟩
